import Mathlib

/-!
Shallow embedding of the go-nvml device layer (device.go) and proofs of the
specified properties. The native NVML library is external to the layer under
verification; it is modelled as an explicit environment of accessor stubs
(`NativeEnv`). Go strings and C byte buffers are modelled as lists of
naturals (byte values); Go error values are modelled as `Option String`
carrying the exact message the code builds with errors.New. Every dispatcher
additionally records the list of native accessors it invoked (`calls`), which
makes the "native layer was (not) invoked" part of the specification
statable.
-/

/-- A native device handle (opaque to the layer; `C.nvmlDevice_t`). -/
abbrev Handle := Nat

/-- The external native capability set. `intCall name h` models
`bridge_get_int_property` applied to the registered accessor for `name`:
it returns the bridge status (EXIT_SUCCESS = 0 on success) and the value
written to the out slot. `textCall name h len` models
`bridge_get_text_property`: it returns the bridge status and the contents of
the text buffer after the call. `deviceCount` models `nvmlDeviceGetCount`
(NVML status, count written), `handleByIndex i` models
`nvmlDeviceGetHandleByIndex`, and `nvmlErrorString` models the native
status-to-message lookup used by the `Device.Error` translator. -/
structure NativeEnv where
  intCall : String → Handle → Int × Nat
  textCall : String → Handle → Nat → Int × List Nat
  deviceCount : Int × Nat
  handleByIndex : Nat → Int × Handle
  nvmlErrorString : Int → Option String

/-- A Go multi-value return: the primary value, the `error` return
(`none` = nil), and the names of the native accessors invoked on the way. -/
structure GoResult (α : Type) where
  val : α
  err : Option String
  calls : List String
deriving Repr, DecidableEq

/-- The `Device` struct of device.go: opaque handle plus cached identity
fields populated by `NewDevice`. -/
structure Device where
  nvmldevice : Handle
  index : Nat
  pcibus : List Nat
  name : List Nat
  uuid : List Nat
deriving Repr, DecidableEq, Inhabited

/-- Key set of the `intpropfunctions` map (the map values are the native
function pointers, i.e. the capabilities supplied by `NativeEnv.intCall`). -/
def intpropfunctions : List String :=
  ["Index", "MinorNumber", "InforomConfigurationChecksum",
   "MaxPCIeLinkGeneration", "MaxPCIeLinkWidth", "CurrPCIeLinkGeneration",
   "CurrPCIeLinkWidth", "PCIeReplayCounter", "FanSpeed",
   "PowerManagementLimit", "PowerManagementDefaultLimit", "PowerUsage",
   "EnforcedPowerLimit", "BoardId", "MultiGpuBoard"]

/-- The `textpropfunctions` map: property name to declared maximum buffer
length (the buffer-size constants come from the native header: name 64,
serial 30, uuid 80, inforom version 16, vbios version 32; the map values
also hold the native function pointers, supplied by `NativeEnv.textCall`). -/
def textpropfunctions : List (String × Nat) :=
  [("Name", 64), ("Serial", 30), ("UUID", 80),
   ("InforomImageVersion", 16), ("VbiosVersion", 32)]

/-- Modelled from the spec: `strndup` (defined in util.go, which is not under
src/) is the length-bounded decode of a C buffer into a Go string: it reads
at most `n` bytes and stops at the first terminator byte, never reading past
the declared length. -/
def strndup (buf : List Nat) (n : Nat) : List Nat :=
  (buf.take n).takeWhile (fun b => b != 0)

/-- `Device.intProperty`: registry lookup, then one native call through the
bridge, with the exact Go error messages. -/
def intProperty (env : NativeEnv) (gpu : Handle) (property : String) :
    GoResult Nat :=
  if intpropfunctions.contains property = false then
    ⟨0, some "property not found", []⟩
  else
    let r := env.intCall property gpu
    if r.1 ≠ 0 then
      ⟨0, some "getintProperty bridge returned error", [property]⟩
    else
      ⟨r.2, none, [property]⟩

/-- `Device.textProperty`: registry lookup, scoped buffer of the declared
length, one native call through the bridge, bounded decode, empty-string
check, with the exact Go error messages. -/
def textProperty (env : NativeEnv) (gpu : Handle) (property : String) :
    GoResult (List Nat) :=
  match textpropfunctions.lookup property with
  | none => ⟨[], some "property not found", []⟩
  | some length =>
    let r := env.textCall property gpu length
    if r.1 ≠ 0 then
      ⟨[], some "gettextProperty bridge returned error", [property]⟩
    else
      let propvalue := strndup r.2 length
      if propvalue.length > 0 then
        ⟨propvalue, none, [property]⟩
      else
        ⟨[], some "textProperty returned empty string", [property]⟩

/-- `Device.Index()`: dispatches through the integer registry. -/
def Device.Index (env : NativeEnv) (gpu : Device) : GoResult Nat :=
  intProperty env gpu.nvmldevice "Index"

/-- `Device.Name()`: dispatches through the text registry. -/
def Device.Name (env : NativeEnv) (gpu : Device) : GoResult (List Nat) :=
  textProperty env gpu.nvmldevice "Name"

/-- `Device.UUID()`: dispatches through the text registry. -/
def Device.UUID (env : NativeEnv) (gpu : Device) : GoResult (List Nat) :=
  textProperty env gpu.nvmldevice "UUID"

/-- `Device.MultiGpuBoard()`: reads the MultiGpuBoard integer property and
maps value 0 to true, anything else to false, passing the error through. -/
def Device.MultiGpuBoard (env : NativeEnv) (gpu : Device) : GoResult Bool :=
  let r := intProperty env gpu.nvmldevice "MultiGpuBoard"
  if r.val = 0 then ⟨true, r.err, r.calls⟩ else ⟨false, r.err, r.calls⟩

/-- `Device.Error`: the status translator. Success sentinel maps to nil;
otherwise the native message is looked up, with a fallback when the lookup
yields nothing. (Defined in device.go but invoked by none of the
dispatchers.) -/
def Device.Error (env : NativeEnv) (_gpu : Device) (cerror : Int) :
    Option String :=
  if cerror = 0 then none
  else
    match env.nvmlErrorString cerror with
    | none => some "Error not found in nvml.h"
    | some s => some s

/-- `NewDevice`: eagerly resolves UUID, then Name, then Index on the given
handle, failing fast with the corresponding construction error message. -/
def NewDevice (env : NativeEnv) (cdevice : Handle) :
    GoResult (Option Device) :=
  let device : Device :=
    { nvmldevice := cdevice, index := 0, pcibus := [], name := [], uuid := [] }
  let r1 := Device.UUID env device
  if r1.err.isSome then
    ⟨none, some "Cannot retrieve UUID property", r1.calls⟩
  else
    let device1 := { device with uuid := r1.val }
    let r2 := Device.Name env device1
    if r2.err.isSome then
      ⟨none, some "Cannot retrieve Name property", r1.calls ++ r2.calls⟩
    else
      let device2 := { device1 with name := r2.val }
      let r3 := Device.Index env device2
      if r3.err.isSome then
        ⟨none, some "Cannot retrieve Index property",
          r1.calls ++ r2.calls ++ r3.calls⟩
      else
        ⟨some { device2 with index := r3.val }, none,
          r1.calls ++ r2.calls ++ r3.calls⟩

/-- `nvmlDeviceGetCount`: wraps the native count query; -1 with an error on
native failure, the count (widened to int) otherwise. -/
def nvmlDeviceGetCount (env : NativeEnv) : Int × Option String :=
  if (env.deviceCount).1 ≠ 0 then (-1, some "nvmlDeviceGetCount failed")
  else (((env.deviceCount).2 : Int), none)

/-- Result of an operation that may terminate the whole process
(`log.Fatal`) instead of returning. -/
inductive FatalOr (α : Type) where
  | fatal (err : String)
  | ok (a : α)
deriving Repr, DecidableEq

/-- The handle-collecting loop of `getAllDevices`: index `i` with `n`
iterations remaining; stops at the first failed handle lookup, returning the
handles obtained so far together with the error. -/
def getHandlesLoop (env : NativeEnv) : Nat → Nat → List Handle × Option String
  | _, 0 => ([], none)
  | i, n + 1 =>
    let r := env.handleByIndex i
    if r.1 ≠ 0 then ([], some "nvmlDeviceGetHandleByIndex returns error")
    else
      let rest := getHandlesLoop env (i + 1) n
      (r.2 :: rest.1, rest.2)

/-- `getAllDevices`: queries the device count (process-fatal on failure),
collects one handle per index, and reports no-devices-found when the loop
completes with zero handles. -/
def getAllDevices (env : NativeEnv) :
    FatalOr (List Handle × Option String) :=
  match nvmlDeviceGetCount env with
  | (_, some e) => FatalOr.fatal e
  | (device_count, none) =>
    let r := getHandlesLoop env 0 device_count.toNat
    match r.2 with
    | some e => FatalOr.ok (r.1, some e)
    | none =>
      if r.1.length = 0 then FatalOr.ok (r.1, some "No devices found")
      else FatalOr.ok (r.1, none)

/-- The device-construction loop of `GetAllGPUs`: builds a Device per
handle, and breaks out of the loop (dropping the rest) at the first
construction failure. -/
def buildDevices (env : NativeEnv) : List Handle → List Device
  | [] => []
  | c :: rest =>
    let r := NewDevice env c
    if r.err.isSome then []
    else
      match r.val with
      | some device => device :: buildDevices env rest
      | none => []

/-- `GetAllGPUs`: enumerates handles via `getAllDevices` (propagating its
error with a nil device slice), then constructs Devices, reporting success
regardless of whether the construction loop broke early. -/
def GetAllGPUs (env : NativeEnv) :
    FatalOr (List Device × Option String) :=
  match getAllDevices env with
  | FatalOr.fatal e => FatalOr.fatal e
  | FatalOr.ok (cdevices, err) =>
    match err with
    | some e => FatalOr.ok ([], some e)
    | none => FatalOr.ok (buildDevices env cdevices, none)

/-! Concrete stub environments used by the witnesses and counterexamples. -/

/-- A stub native layer on which every accessor succeeds. -/
def envOkC1 : NativeEnv where
  intCall := fun _ _ => (0, 3)
  textCall := fun _ _ _ => (0, [65, 66, 0])
  deviceCount := (0, 1)
  handleByIndex := fun i => (0, i)
  nvmlErrorString := fun _ => none

/-- The Device that `NewDevice envOkC1 0` constructs. -/
def devC1 : Device :=
  { nvmldevice := 0, index := 3, pcibus := [], name := [65, 66], uuid := [65, 66] }

/-- A stub native layer on which every accessor fails with status 3. -/
def envStat3 : NativeEnv where
  intCall := fun _ _ => (3, 0)
  textCall := fun _ _ _ => (3, [])
  deviceCount := (0, 0)
  handleByIndex := fun i => (0, i)
  nvmlErrorString := fun s => if s = 3 then some "Driver Not Loaded" else some "Unknown Error"

/-- A stub native layer on which every accessor fails with status 7. -/
def envStat7 : NativeEnv where
  intCall := fun _ _ => (7, 0)
  textCall := fun _ _ _ => (7, [])
  deviceCount := (0, 0)
  handleByIndex := fun i => (0, i)
  nvmlErrorString := fun s => if s = 3 then some "Driver Not Loaded" else some "Unknown Error"

/-- A stub native layer reporting success but writing a buffer that starts
with the terminator (decodes to the empty string). Also has device count 0. -/
def envEmptyText : NativeEnv where
  intCall := fun _ _ => (0, 0)
  textCall := fun _ _ _ => (0, [0, 65, 66])
  deviceCount := (0, 0)
  handleByIndex := fun i => (0, i)
  nvmlErrorString := fun _ => none

/-! Claim theorems. -/

/-- C8: for a property name absent from the corresponding registry, both
dispatchers return the property-not-found error with value zero resp. the
empty string, and the native layer is never invoked (empty call trace). -/
theorem c8_unknown_property_no_native_call (env : NativeEnv) (h : Handle)
    (p : String)
    (hi : intpropfunctions.contains p = false)
    (ht : textpropfunctions.lookup p = none) :
    intProperty env h p = ⟨0, some "property not found", []⟩ ∧
    textProperty env h p = ⟨[], some "property not found", []⟩ := by
  have hm : ¬ p ∈ intpropfunctions := by simpa using hi
  constructor
  · simp [intProperty, hi, hm]
  · simp [textProperty, ht]

/-- C8 witness: the name Bogus is in neither registry, so both lookups fail
without a native call. -/
theorem c8_unknown_property_no_native_call_witness :
    intProperty envOkC1 0 "Bogus" = ⟨0, some "property not found", []⟩ ∧
    textProperty envOkC1 0 "Bogus" = ⟨[], some "property not found", []⟩ :=
  c8_unknown_property_no_native_call envOkC1 0 "Bogus" (by decide) (by decide)

/-- C9: when the native text accessor reports success, the dispatcher
returns the empty-string error when the decoded value has zero length, and
returns the decoded value as a success exactly when it is non-empty. -/
theorem c9_empty_text_error (env : NativeEnv) (h : Handle) (p : String)
    (len : Nat) (hp : textpropfunctions.lookup p = some len)
    (hs : (env.textCall p h len).1 = 0) :
    ((strndup (env.textCall p h len).2 len).length = 0 →
      textProperty env h p =
        ⟨[], some "textProperty returned empty string", [p]⟩) ∧
    (0 < (strndup (env.textCall p h len).2 len).length →
      textProperty env h p =
        ⟨strndup (env.textCall p h len).2 len, none, [p]⟩) := by
  constructor
  · intro hlen
    simp [textProperty, hp, hs, hlen]
  · intro hlen
    simp only [textProperty, hp]
    rw [if_neg (by simp [hs])]
    rw [if_pos hlen]

/-- C9 witness: a success status with a terminator-first buffer yields the
empty-string error, and a success status with a non-empty decode yields the
decoded value. -/
theorem c9_empty_text_error_witness :
    textProperty envEmptyText 0 "Name" =
      ⟨[], some "textProperty returned empty string", ["Name"]⟩ ∧
    textProperty envOkC1 0 "Name" = ⟨[65, 66], none, ["Name"]⟩ :=
  ⟨(c9_empty_text_error envEmptyText 0 "Name" 64 (by decide) (by decide)).1
      (by decide),
   (c9_empty_text_error envOkC1 0 "Name" 64 (by decide) (by decide)).2
      (by decide)⟩

/-- C2: MultiGpuBoard maps the native integer 0 to true and any nonzero
value to false, and, when the integer dispatcher fails (value 0 together
with an error), it returns true paired with that error. -/
theorem c2_multiGpuBoard_zero_iff_true (env : NativeEnv) (d : Device) :
    ((env.intCall "MultiGpuBoard" d.nvmldevice).1 = 0 →
      ((Device.MultiGpuBoard env d).val = true ↔
        (env.intCall "MultiGpuBoard" d.nvmldevice).2 = 0)) ∧
    ((intProperty env d.nvmldevice "MultiGpuBoard").err.isSome = true →
      Device.MultiGpuBoard env d =
        ⟨true, (intProperty env d.nvmldevice "MultiGpuBoard").err,
          ["MultiGpuBoard"]⟩) := by
  have hm : "MultiGpuBoard" ∈ intpropfunctions := by decide
  by_cases hs : (env.intCall "MultiGpuBoard" d.nvmldevice).1 = 0
  · constructor
    · intro _
      by_cases hv : (env.intCall "MultiGpuBoard" d.nvmldevice).2 = 0
      · simp [Device.MultiGpuBoard, intProperty, hm, hs, hv]
      · simp [Device.MultiGpuBoard, intProperty, hm, hs, hv]
    · intro habs
      simp [intProperty, hm, hs] at habs
  · constructor
    · intro h0
      exact absurd h0 hs
    · intro _
      simp [Device.MultiGpuBoard, intProperty, hm, hs]

/-- C2 witness: on a stub whose MultiGpuBoard accessor succeeds with 0 the
method returns true, and on a stub whose accessor fails it returns true
together with the bridge error. -/
theorem c2_multiGpuBoard_zero_iff_true_witness :
    ((Device.MultiGpuBoard envEmptyText devC1).val = true ↔
      (envEmptyText.intCall "MultiGpuBoard" devC1.nvmldevice).2 = 0) ∧
    Device.MultiGpuBoard envStat3 devC1 =
      ⟨true, (intProperty envStat3 devC1.nvmldevice "MultiGpuBoard").err,
        ["MultiGpuBoard"]⟩ :=
  ⟨(c2_multiGpuBoard_zero_iff_true envEmptyText devC1).1 (by decide),
   (c2_multiGpuBoard_zero_iff_true envStat3 devC1).2 (by decide)⟩

/-- C3 counterexample: two stub layers failing with different native
statuses (whose translator messages differ) produce the identical fixed
error message from both dispatchers, so the returned error does not carry
the native message for the status. -/
theorem c3_generic_message_counterexample :
    (intProperty envStat3 0 "Index").err =
      some "getintProperty bridge returned error" ∧
    (intProperty envStat7 0 "Index").err =
      some "getintProperty bridge returned error" ∧
    (envStat3.intCall "Index" 0).1 ≠ (envStat7.intCall "Index" 0).1 ∧
    Device.Error envStat3 default ((envStat3.intCall "Index" 0).1) =
      some "Driver Not Loaded" ∧
    Device.Error envStat7 default ((envStat7.intCall "Index" 0).1) =
      some "Unknown Error" ∧
    (textProperty envStat3 0 "UUID").err =
      some "gettextProperty bridge returned error" := by
  decide

/-- C3 amended: for every registered property, a non-success bridge status
makes the dispatchers fail with the fixed generic messages (the native
message is not propagated). -/
theorem c3_fixed_failure_message (env : NativeEnv) (h : Handle)
    (p : String) :
    (intpropfunctions.contains p = true → (env.intCall p h).1 ≠ 0 →
      intProperty env h p =
        ⟨0, some "getintProperty bridge returned error", [p]⟩) ∧
    (∀ len, textpropfunctions.lookup p = some len →
      (env.textCall p h len).1 ≠ 0 →
      textProperty env h p =
        ⟨[], some "gettextProperty bridge returned error", [p]⟩) := by
  constructor
  · intro hc hs
    have hm : p ∈ intpropfunctions := by simpa using hc
    simp [intProperty, hm, hs]
  · intro len hl hs
    simp [textProperty, hl, hs]

/-- C3 amended witness: a failing stub yields exactly the fixed messages. -/
theorem c3_fixed_failure_message_witness :
    intProperty envStat3 0 "Index" =
      ⟨0, some "getintProperty bridge returned error", ["Index"]⟩ ∧
    textProperty envStat3 0 "UUID" =
      ⟨[], some "gettextProperty bridge returned error", ["UUID"]⟩ :=
  ⟨(c3_fixed_failure_message envStat3 0 "Index").1 (by decide) (by decide),
   (c3_fixed_failure_message envStat3 0 "UUID").2 80 (by decide) (by decide)⟩

/-! Helper lemmas about the bounded decode. -/

/-- The length-bounded decode never exceeds the declared length. -/
theorem length_takeWhile_le_length (p : Nat → Bool) (l : List Nat) :
    (l.takeWhile p).length ≤ l.length := by
  induction l with
  | nil => simp
  | cons a t ih =>
    rw [List.takeWhile_cons]
    by_cases hpa : p a = true
    · rw [if_pos hpa]
      simp only [List.length_cons]
      omega
    · rw [if_neg hpa]
      simp

theorem strndup_length_le (buf : List Nat) (n : Nat) :
    (strndup buf n).length ≤ n := by
  unfold strndup
  calc ((buf.take n).takeWhile (fun b => b != 0)).length
      ≤ (buf.take n).length := length_takeWhile_le_length _ _
    _ ≤ n := by
        rw [List.length_take]
        omega

/-- Every byte of the decode satisfies the predicate: no terminator byte is
kept. -/
theorem strndup_no_terminator (buf : List Nat) (n : Nat) (b : Nat)
    (hb : b ∈ strndup buf n) : b ≠ 0 := by
  unfold strndup at hb
  generalize buf.take n = l at hb
  induction l with
  | nil => simp at hb
  | cons a t ih =>
    rw [List.takeWhile_cons] at hb
    by_cases hpa : (a != 0) = true
    · rw [if_pos hpa] at hb
      rcases List.mem_cons.mp hb with he | ht
      · subst he
        simpa using hpa
      · exact ih ht
    · rw [if_neg hpa] at hb
      simp at hb

/-- Taking the decode length from a list reproduces its takeWhile. -/
theorem take_length_takeWhile (p : Nat → Bool) (l : List Nat) :
    l.take (l.takeWhile p).length = l.takeWhile p := by
  induction l with
  | nil => simp
  | cons a t ih =>
    rw [List.takeWhile_cons]
    by_cases hpa : p a = true
    · rw [if_pos hpa]
      simp [ih]
    · rw [if_neg hpa]
      simp

/-- When takeWhile stops before the end of the list, the element at the stop
position falsifies the predicate. -/
theorem takeWhile_stop_elem (p : Nat → Bool) (l : List Nat)
    (h : (l.takeWhile p).length < l.length) :
    ∃ b, l[(l.takeWhile p).length]? = some b ∧ p b = false := by
  induction l with
  | nil => simp at h
  | cons a t ih =>
    rw [List.takeWhile_cons] at h ⊢
    by_cases hpa : p a = true
    · rw [if_pos hpa] at h ⊢
      simp only [List.length_cons] at h
      have := ih (by omega)
      simpa using this
    · rw [if_neg hpa] at h ⊢
      exact ⟨a, by simp, by simpa using hpa⟩

/-- C6: for every registered text property, the value returned by the text
dispatcher is at most the declared maximum buffer length long and contains
no terminator byte, for any buffer contents the stub writes; and on success
the value is exactly the bounded decode of the buffer: a prefix of the first
len bytes that stops at the first terminator (if the decode stopped before
the end of the truncated buffer, the byte at the stop position is the
terminator). -/
theorem c6_text_decode_bounded (env : NativeEnv) (h : Handle) (p : String)
    (len : Nat) (hp : textpropfunctions.lookup p = some len) :
    (textProperty env h p).val.length ≤ len ∧
    (∀ b ∈ (textProperty env h p).val, b ≠ 0) ∧
    ((textProperty env h p).err = none →
      (textProperty env h p).val = strndup (env.textCall p h len).2 len ∧
      ((env.textCall p h len).2.take len).take
          (textProperty env h p).val.length = (textProperty env h p).val ∧
      ((textProperty env h p).val.length <
          ((env.textCall p h len).2.take len).length →
        ∃ b, ((env.textCall p h len).2.take len)[
            (textProperty env h p).val.length]? = some b ∧ b = 0)) := by
  by_cases hs : (env.textCall p h len).1 = 0
  · by_cases hlen : 0 < (strndup (env.textCall p h len).2 len).length
    · have hval : textProperty env h p =
          ⟨strndup (env.textCall p h len).2 len, none, [p]⟩ := by
        simp only [textProperty, hp]
        rw [if_neg (by simp [hs])]
        rw [if_pos hlen]
      rw [hval]
      refine ⟨strndup_length_le _ _, fun b hb => strndup_no_terminator _ _ b hb, ?_⟩
      intro _
      refine ⟨rfl, take_length_takeWhile _ _, ?_⟩
      intro hlt
      obtain ⟨b, hb, hpb⟩ := takeWhile_stop_elem (fun b => b != 0) _ hlt
      exact ⟨b, hb, by simpa using hpb⟩
    · have hval : textProperty env h p =
          ⟨[], some "textProperty returned empty string", [p]⟩ := by
        simp only [textProperty, hp]
        rw [if_neg (by simp [hs])]
        rw [if_neg hlen]
      rw [hval]
      refine ⟨by simp, by simp, ?_⟩
      intro habs
      simp at habs
  · have hval : textProperty env h p =
        ⟨[], some "gettextProperty bridge returned error", [p]⟩ := by
      simp only [textProperty, hp]
      rw [if_pos (by simpa using hs)]
    rw [hval]
    refine ⟨by simp, by simp, ?_⟩
    intro habs
    simp at habs

/-- A stub native layer that overruns: it reports success and hands back a
buffer longer than the declared length, filled entirely with non-terminator
bytes. -/
def envOverrun : NativeEnv where
  intCall := fun _ _ => (0, 0)
  textCall := fun _ _ len => (0, List.replicate (len + 36) 65)
  deviceCount := (0, 0)
  handleByIndex := fun i => (0, i)
  nvmlErrorString := fun _ => none

/-- C6 witness: even on a buffer of 100 non-terminator bytes for the Name
property (declared length 64), the decoded value is bounded by 64 and equals
the bounded decode. -/
theorem c6_text_decode_bounded_witness :
    (textProperty envOverrun 0 "Name").val.length ≤ 64 ∧
    (textProperty envOverrun 0 "Name").val =
      strndup (envOverrun.textCall "Name" 0 64).2 64 :=
  ⟨(c6_text_decode_bounded envOverrun 0 "Name" 64 (by decide)).1,
   ((c6_text_decode_bounded envOverrun 0 "Name" 64 (by decide)).2.2
      (by decide)).1⟩

/-! Helper lemmas about the shapes of dispatcher and constructor results. -/

/-- A successful text dispatch has exactly one native call and keeps its
value. -/
theorem textProperty_success_shape (env : NativeEnv) (h : Handle)
    (p : String) (he : (textProperty env h p).err = none) :
    textProperty env h p = ⟨(textProperty env h p).val, none, [p]⟩ := by
  rcases hl : textpropfunctions.lookup p with _ | len
  · simp [textProperty, hl] at he
  · by_cases hs : (env.textCall p h len).1 = 0
    · by_cases hlen : 0 < (strndup (env.textCall p h len).2 len).length
      · simp only [textProperty, hl]
        rw [if_neg (by simp [hs]), if_pos hlen]
      · have : textProperty env h p =
            ⟨[], some "textProperty returned empty string", [p]⟩ := by
          simp only [textProperty, hl]
          rw [if_neg (by simp [hs]), if_neg hlen]
        rw [this] at he
        simp at he
    · have : textProperty env h p =
          ⟨[], some "gettextProperty bridge returned error", [p]⟩ := by
        simp only [textProperty, hl]
        rw [if_pos (by simpa using hs)]
      rw [this] at he
      simp at he

/-- A successful integer dispatch has exactly one native call and keeps its
value. -/
theorem intProperty_success_shape (env : NativeEnv) (h : Handle)
    (p : String) (he : (intProperty env h p).err = none) :
    intProperty env h p = ⟨(intProperty env h p).val, none, [p]⟩ := by
  by_cases hm : p ∈ intpropfunctions
  · by_cases hs : (env.intCall p h).1 = 0
    · simp only [intProperty]
      rw [if_neg (by simpa using hm), if_neg (by simp [hs])]
    · have : intProperty env h p =
          ⟨0, some "getintProperty bridge returned error", [p]⟩ := by
        simp only [intProperty]
        rw [if_neg (by simpa using hm), if_pos (by simpa using hs)]
      rw [this] at he
      simp at he
  · have : intProperty env h p = ⟨0, some "property not found", []⟩ := by
      simp only [intProperty]
      rw [if_pos (by simpa using hm)]
    rw [this] at he
    simp at he

/-- Unfolded form of `NewDevice`: UUID first, then Name, then Index, each
checked before the next is attempted. -/
theorem newDevice_eq (env : NativeEnv) (h : Handle) :
    NewDevice env h =
      if (textProperty env h "UUID").err.isSome then
        ⟨none, some "Cannot retrieve UUID property",
          (textProperty env h "UUID").calls⟩
      else if (textProperty env h "Name").err.isSome then
        ⟨none, some "Cannot retrieve Name property",
          (textProperty env h "UUID").calls ++
            (textProperty env h "Name").calls⟩
      else if (intProperty env h "Index").err.isSome then
        ⟨none, some "Cannot retrieve Index property",
          (textProperty env h "UUID").calls ++
            (textProperty env h "Name").calls ++
            (intProperty env h "Index").calls⟩
      else
        ⟨some ⟨h, (intProperty env h "Index").val, [],
            (textProperty env h "Name").val,
            (textProperty env h "UUID").val⟩, none,
          (textProperty env h "UUID").calls ++
            (textProperty env h "Name").calls ++
            (intProperty env h "Index").calls⟩ := rfl

/-- A successfully constructed Device carries the handle it was built from
and exactly the identity values the three resolutions produced, all of which
succeeded. -/
theorem newDevice_success_fields (env : NativeEnv) (h : Handle) (d : Device)
    (hd : (NewDevice env h).val = some d) :
    (NewDevice env h).err = none ∧
    (textProperty env h "UUID").err = none ∧
    (textProperty env h "Name").err = none ∧
    (intProperty env h "Index").err = none ∧
    d.uuid = (textProperty env h "UUID").val ∧
    d.name = (textProperty env h "Name").val ∧
    d.index = (intProperty env h "Index").val ∧
    d.nvmldevice = h := by
  rw [newDevice_eq] at hd ⊢
  by_cases h1 : (textProperty env h "UUID").err.isSome
  · rw [if_pos h1] at hd
    simp at hd
  · rw [if_neg h1] at hd ⊢
    by_cases h2 : (textProperty env h "Name").err.isSome
    · rw [if_pos h2] at hd
      simp at hd
    · rw [if_neg h2] at hd ⊢
      by_cases h3 : (intProperty env h "Index").err.isSome
      · rw [if_pos h3] at hd
        simp at hd
      · rw [if_neg h3] at hd ⊢
        have hd2 : (⟨h, (intProperty env h "Index").val, [],
            (textProperty env h "Name").val,
            (textProperty env h "UUID").val⟩ : Device) = d := by
          simpa using hd
        subst hd2
        refine ⟨rfl, ?_, ?_, ?_, rfl, rfl, rfl, rfl⟩
        · simpa using h1
        · simpa using h2
        · simpa using h3

/-- C7: device construction resolves UUID, then Name, then Index, in that
order, failing fast with the corresponding error and attempting no later
resolution (visible in the native call trace); a returned Device has all
three identity attributes successfully resolved. -/
theorem c7_newDevice_fail_fast (env : NativeEnv) (h : Handle) :
    ((textProperty env h "UUID").err.isSome = true →
      NewDevice env h = ⟨none, some "Cannot retrieve UUID property",
        (textProperty env h "UUID").calls⟩) ∧
    ((textProperty env h "UUID").err = none →
      (textProperty env h "Name").err.isSome = true →
      NewDevice env h = ⟨none, some "Cannot retrieve Name property",
        (textProperty env h "UUID").calls ++
          (textProperty env h "Name").calls⟩) ∧
    ((textProperty env h "UUID").err = none →
      (textProperty env h "Name").err = none →
      (intProperty env h "Index").err.isSome = true →
      NewDevice env h = ⟨none, some "Cannot retrieve Index property",
        (textProperty env h "UUID").calls ++
          (textProperty env h "Name").calls ++
          (intProperty env h "Index").calls⟩) ∧
    (∀ d, (NewDevice env h).val = some d →
      (NewDevice env h).err = none ∧
      (textProperty env h "UUID").err = none ∧
      (textProperty env h "Name").err = none ∧
      (intProperty env h "Index").err = none ∧
      d.uuid = (textProperty env h "UUID").val ∧
      d.name = (textProperty env h "Name").val ∧
      d.index = (intProperty env h "Index").val) := by
  refine ⟨?_, ?_, ?_, ?_⟩
  · intro h1
    rw [newDevice_eq, if_pos h1]
  · intro h1 h2
    rw [newDevice_eq, if_neg (by simp [h1]), if_pos h2]
  · intro h1 h2 h3
    rw [newDevice_eq, if_neg (by simp [h1]), if_neg (by simp [h2]),
      if_pos h3]
  · intro d hd
    obtain ⟨e0, e1, e2, e3, f1, f2, f3, -⟩ :=
      newDevice_success_fields env h d hd
    exact ⟨e0, e1, e2, e3, f1, f2, f3⟩

/-- A stub native layer where the UUID text accessor succeeds but the Name
text accessor fails. -/
def envNameFails : NativeEnv where
  intCall := fun _ _ => (0, 5)
  textCall := fun p _ _ => if p = "UUID" then (0, [71, 0]) else (1, [])
  deviceCount := (0, 0)
  handleByIndex := fun i => (0, i)
  nvmlErrorString := fun _ => none

/-- A stub native layer where the text accessors succeed but every integer
accessor fails. -/
def envIndexFails : NativeEnv where
  intCall := fun _ _ => (9, 0)
  textCall := fun _ _ _ => (0, [71, 0])
  deviceCount := (0, 0)
  handleByIndex := fun i => (0, i)
  nvmlErrorString := fun _ => none

/-- C7 witness: each failure point of construction observed on a concrete
stub, plus a fully successful construction. -/
theorem c7_newDevice_fail_fast_witness :
    NewDevice envStat3 0 =
      ⟨none, some "Cannot retrieve UUID property", ["UUID"]⟩ ∧
    NewDevice envNameFails 0 =
      ⟨none, some "Cannot retrieve Name property", ["UUID", "Name"]⟩ ∧
    NewDevice envIndexFails 0 =
      ⟨none, some "Cannot retrieve Index property",
        ["UUID", "Name", "Index"]⟩ ∧
    ((NewDevice envOkC1 0).err = none ∧
      (textProperty envOkC1 0 "UUID").err = none ∧
      (textProperty envOkC1 0 "Name").err = none ∧
      (intProperty envOkC1 0 "Index").err = none ∧
      devC1.uuid = (textProperty envOkC1 0 "UUID").val ∧
      devC1.name = (textProperty envOkC1 0 "Name").val ∧
      devC1.index = (intProperty envOkC1 0 "Index").val) :=
  ⟨(c7_newDevice_fail_fast envStat3 0).1 (by decide),
   (c7_newDevice_fail_fast envNameFails 0).2.1 (by decide) (by decide),
   (c7_newDevice_fail_fast envIndexFails 0).2.2.1 (by decide) (by decide)
     (by decide),
   (c7_newDevice_fail_fast envOkC1 0).2.2.2 devC1 (by decide)⟩

/-- C1 counterexample: on a stub where construction succeeds, every call of
the public accessors on the constructed Device performs a fresh native call
(non-empty call trace), so the accessors are not served from the cached
identity fields without re-invoking the native layer. -/
theorem c1_cached_accessor_counterexample :
    (NewDevice envOkC1 0).val = some devC1 ∧
    (Device.UUID envOkC1 devC1).calls = ["UUID"] ∧
    (Device.Name envOkC1 devC1).calls = ["Name"] ∧
    (Device.Index envOkC1 devC1).calls = ["Index"] := by
  decide

/-- C1 amended: for a Device successfully constructed by NewDevice, the
public accessors return exactly the values the native layer supplied at
construction (equal to the cached identity fields), but each accessor
invocation re-invokes the native layer (one native call per invocation)
rather than serving the cached fields. -/
theorem c1_roundtrip_amended (env : NativeEnv) (h : Handle) (d : Device)
    (hd : (NewDevice env h).val = some d) :
    Device.UUID env d = ⟨d.uuid, none, ["UUID"]⟩ ∧
    Device.Name env d = ⟨d.name, none, ["Name"]⟩ ∧
    Device.Index env d = ⟨d.index, none, ["Index"]⟩ := by
  obtain ⟨-, hu, hn, hi, du, dn, di, dh⟩ :=
    newDevice_success_fields env h d hd
  refine ⟨?_, ?_, ?_⟩
  · simp only [Device.UUID]
    rw [dh, du, textProperty_success_shape env h "UUID" hu]
  · simp only [Device.Name]
    rw [dh, dn, textProperty_success_shape env h "Name" hn]
  · simp only [Device.Index]
    rw [dh, di, intProperty_success_shape env h "Index" hi]

/-- C1 amended witness: the concrete successful construction round-trips
through the accessors. -/
theorem c1_roundtrip_amended_witness :
    Device.UUID envOkC1 devC1 = ⟨devC1.uuid, none, ["UUID"]⟩ ∧
    Device.Name envOkC1 devC1 = ⟨devC1.name, none, ["Name"]⟩ ∧
    Device.Index envOkC1 devC1 = ⟨devC1.index, none, ["Index"]⟩ :=
  c1_roundtrip_amended envOkC1 0 devC1 (by decide)

/-! Helper lemmas about enumeration. -/

/-- A construction that reports no error produced a Device value. -/
theorem newDevice_val_of_err_none (env : NativeEnv) (c : Handle)
    (he : (NewDevice env c).err = none) :
    ∃ d0, (NewDevice env c).val = some d0 := by
  rw [newDevice_eq] at he ⊢
  by_cases h1 : (textProperty env c "UUID").err.isSome
  · rw [if_pos h1] at he
    simp at he
  · rw [if_neg h1] at he ⊢
    by_cases h2 : (textProperty env c "Name").err.isSome
    · rw [if_pos h2] at he
      simp at he
    · rw [if_neg h2] at he ⊢
      by_cases h3 : (intProperty env c "Index").err.isSome
      · rw [if_pos h3] at he
        simp at he
      · rw [if_neg h3]
        exact ⟨_, rfl⟩

/-- The construction loop over a handle list that succeeds up to a failing
handle produces exactly the Devices of the leading handles and drops
everything from the failing handle on. -/
theorem buildDevices_append_break (env : NativeEnv) (hs1 : List Handle)
    (bad : Handle) (hs2 : List Handle)
    (hgood : ∀ x ∈ hs1, (NewDevice env x).err = none)
    (hbad : (NewDevice env bad).err.isSome = true) :
    buildDevices env (hs1 ++ bad :: hs2) =
      hs1.map (fun x => ((NewDevice env x).val).getD default) := by
  induction hs1 with
  | nil =>
    simp only [List.nil_append, List.map_nil, buildDevices]
    rw [if_pos hbad]
  | cons a t ih =>
    have ha := hgood a (by simp)
    obtain ⟨d0, hd0⟩ := newDevice_val_of_err_none env a ha
    have ht : ∀ x ∈ t, (NewDevice env x).err = none := by
      intro x hx
      exact hgood x (by simp [hx])
    simp only [List.cons_append, buildDevices, List.map_cons]
    rw [if_neg (by simp [ha]), hd0]
    simp [ih ht, hd0]

/-- C4: when handle enumeration succeeds but construction fails for one
handle, GetAllGPUs returns exactly the Devices built from the earlier
handles and reports overall success (nil error), masking the partial
failure; nothing is returned for the failing handle or the later ones. -/
theorem c4_construction_failure_masked (env : NativeEnv)
    (hs1 : List Handle) (bad : Handle) (hs2 : List Handle)
    (henum : getAllDevices env = FatalOr.ok (hs1 ++ bad :: hs2, none))
    (hgood : ∀ x ∈ hs1, (NewDevice env x).err = none)
    (hbad : (NewDevice env bad).err.isSome = true) :
    GetAllGPUs env = FatalOr.ok
      (hs1.map (fun x => ((NewDevice env x).val).getD default), none) := by
  simp only [GetAllGPUs, henum]
  rw [buildDevices_append_break env hs1 bad hs2 hgood hbad]

/-- A stub native layer with two devices where construction succeeds for
handle 0 and fails (bridge failure on every text accessor) for handle 1. -/
def envC4 : NativeEnv where
  intCall := fun _ x => (0, x + 3)
  textCall := fun _ x _ => if x = 0 then (0, [72, 0]) else (2, [])
  deviceCount := (0, 2)
  handleByIndex := fun i => (0, i)
  nvmlErrorString := fun _ => none

/-- C4 witness: with two enumerated handles and construction failing on the
second, the result is the one Device built from the first handle and a nil
error. -/
theorem c4_construction_failure_masked_witness :
    GetAllGPUs envC4 = FatalOr.ok
      ([0].map (fun x => ((NewDevice envC4 x).val).getD default), none) :=
  c4_construction_failure_masked envC4 [0] 1 []
    (by decide) (by decide) (by decide)

/-- If some index within the remaining range has a failing handle lookup,
the handle loop reports the enumeration error. -/
theorem getHandlesLoop_fails (env : NativeEnv) (n : Nat) :
    ∀ i k, k < n → (env.handleByIndex (i + k)).1 ≠ 0 →
    (getHandlesLoop env i n).2 =
      some "nvmlDeviceGetHandleByIndex returns error" := by
  induction n with
  | zero =>
    intro i k hk _
    omega
  | succ m ih =>
    intro i k hk hf
    by_cases h0 : (env.handleByIndex i).1 = 0
    · have hk0 : k ≠ 0 := by
        intro hz
        subst hz
        simp at hf
        exact hf h0
      obtain ⟨k2, rfl⟩ : ∃ k2, k = k2 + 1 := ⟨k - 1, by omega⟩
      have hf2 : (env.handleByIndex ((i + 1) + k2)).1 ≠ 0 := by
        rw [show (i + 1) + k2 = i + (k2 + 1) by omega]
        exact hf
      have := ih (i + 1) k2 (by omega) hf2
      simp only [getHandlesLoop]
      rw [if_neg (by simp [h0])]
      exact this
    · simp only [getHandlesLoop]
      rw [if_pos h0]

/-- C5: if the count query succeeds and the handle lookup fails for some
index below the count, GetAllGPUs returns the enumeration error together
with an empty Device list: no Device for any index leaks out. -/
theorem c5_handle_failure_empty_result (env : NativeEnv) (k : Nat)
    (hcount : (env.deviceCount).1 = 0)
    (hk : k < (env.deviceCount).2)
    (hf : (env.handleByIndex k).1 ≠ 0) :
    GetAllGPUs env =
      FatalOr.ok ([], some "nvmlDeviceGetHandleByIndex returns error") := by
  have hloop := getHandlesLoop_fails env (env.deviceCount).2 0 k hk
    (by simpa using hf)
  have hc : nvmlDeviceGetCount env = (((env.deviceCount).2 : Int), none) := by
    simp [nvmlDeviceGetCount, hcount]
  simp only [GetAllGPUs, getAllDevices, hc, Int.toNat_natCast, hloop]

/-- A stub native layer with device count 3 whose handle lookup fails for
index 1 only. -/
def envC5 : NativeEnv where
  intCall := fun _ _ => (0, 0)
  textCall := fun _ _ _ => (0, [65, 0])
  deviceCount := (0, 3)
  handleByIndex := fun i => if i = 1 then (5, 0) else (0, i)
  nvmlErrorString := fun _ => none

/-- C5 witness: count 3 with the lookup for index 1 failing yields the
enumeration error and no Devices at all. -/
theorem c5_handle_failure_empty_result_witness :
    GetAllGPUs envC5 =
      FatalOr.ok ([], some "nvmlDeviceGetHandleByIndex returns error") :=
  c5_handle_failure_empty_result envC5 1 (by decide) (by decide) (by decide)

/-- C10: a failing device-count query makes enumeration process-fatal with
the count error (and this is the only fatal path: a fatal outcome implies
the count query failed); a successful count of zero devices yields the
no-devices-found error. -/
theorem c10_count_failure_fatal (env : NativeEnv) :
    ((env.deviceCount).1 ≠ 0 →
      GetAllGPUs env = FatalOr.fatal "nvmlDeviceGetCount failed") ∧
    (∀ e, GetAllGPUs env = FatalOr.fatal e →
      (env.deviceCount).1 ≠ 0 ∧ e = "nvmlDeviceGetCount failed") ∧
    ((env.deviceCount).1 = 0 → (env.deviceCount).2 = 0 →
      GetAllGPUs env = FatalOr.ok ([], some "No devices found")) := by
  refine ⟨?_, ?_, ?_⟩
  · intro hbad
    have hc : nvmlDeviceGetCount env = (-1, some "nvmlDeviceGetCount failed") := by
      simp [nvmlDeviceGetCount, hbad]
    simp only [GetAllGPUs, getAllDevices, hc]
  · intro e hfatal
    by_cases hst : (env.deviceCount).1 = 0
    · exfalso
      have hc : nvmlDeviceGetCount env =
          (((env.deviceCount).2 : Int), none) := by
        simp [nvmlDeviceGetCount, hst]
      rcases h2 : (getHandlesLoop env 0 (env.deviceCount).2).2 with _ | e2
      · by_cases hlen :
          (getHandlesLoop env 0 (env.deviceCount).2).1.length = 0
        · simp only [GetAllGPUs, getAllDevices, hc, Int.toNat_natCast, h2,
            if_pos hlen] at hfatal
          exact FatalOr.noConfusion hfatal
        · simp only [GetAllGPUs, getAllDevices, hc, Int.toNat_natCast, h2,
            if_neg hlen] at hfatal
          exact FatalOr.noConfusion hfatal
      · simp only [GetAllGPUs, getAllDevices, hc, Int.toNat_natCast,
          h2] at hfatal
        exact FatalOr.noConfusion hfatal
    · have hc : nvmlDeviceGetCount env =
          (-1, some "nvmlDeviceGetCount failed") := by
        simp [nvmlDeviceGetCount, hst]
      refine ⟨hst, ?_⟩
      simp only [GetAllGPUs, getAllDevices, hc] at hfatal
      cases hfatal
      rfl
  · intro hst hzero
    have hc : nvmlDeviceGetCount env =
        (((env.deviceCount).2 : Int), none) := by
      simp [nvmlDeviceGetCount, hst]
    simp only [GetAllGPUs, getAllDevices, hc, Int.toNat_natCast, hzero,
      getHandlesLoop]
    simp

/-- A stub native layer whose device-count query fails. -/
def envBadCount : NativeEnv where
  intCall := fun _ _ => (0, 0)
  textCall := fun _ _ _ => (0, [65, 0])
  deviceCount := (1, 5)
  handleByIndex := fun i => (0, i)
  nvmlErrorString := fun _ => none

/-- C10 witness: a failing count query is fatal with the count message, and
a successful count of zero yields the no-devices-found error. -/
theorem c10_count_failure_fatal_witness :
    GetAllGPUs envBadCount = FatalOr.fatal "nvmlDeviceGetCount failed" ∧
    ((envBadCount.deviceCount).1 ≠ 0 ∧
      "nvmlDeviceGetCount failed" = "nvmlDeviceGetCount failed") ∧
    GetAllGPUs envEmptyText = FatalOr.ok ([], some "No devices found") :=
  ⟨(c10_count_failure_fatal envBadCount).1 (by decide),
   (c10_count_failure_fatal envBadCount).2.1 "nvmlDeviceGetCount failed"
     ((c10_count_failure_fatal envBadCount).1 (by decide)),
   (c10_count_failure_fatal envEmptyText).2.2 (by decide) (by decide)⟩
